import Mathlib

/-!
Verification of the Email-Spam-Detection-System serving pipeline.

Shallow embedding of the classification-serving code:
  * `api/main.py`   — profile catalog, threshold resolution, the `/predict`,
    `/batch` and `/file-predict` endpoints;
  * `src/batch_predict.py` — the offline CLI batch scorer.

Python floats that carry thresholds and probabilities are modelled as `ℚ`;
byte strings as `List Nat` (each element < 256); decoded text as `List Nat`
of Unicode code points where the byte level matters, and as `String` where
it does not.  External libraries (pandas parsing, the sklearn vectorizer and
classifier) are modelled as abstract capabilities: functions supplied as
parameters, exactly at the boundary the code calls them.  Per the sklearn
contract, `predict_proba` returns one column per entry of `classes_`, so
`proba.shape[1]` is embedded as `classes.length`.
-/

namespace SpamDetector

/-! ## Profile catalog (`api/main.py` lines 39-91)

`PROFILE_DEFINITIONS` maps profile keys to records; only the thresholds are
consulted by the threshold-resolution code, so we embed the derived
`PROFILE_THRESHOLDS` dict (line 78) as an association list in the source's
insertion order, and `PROFILE_ALIASES` (line 83) likewise. -/

def PROFILE_THRESHOLDS : List (String × ℚ) :=
  [ ("default", 55/100)
  , ("telco", 55/100)
  , ("bank", 65/100)
  , ("marketing", 45/100)
  , ("aggressive", 45/100)
  , ("balanced", 55/100)
  , ("conservative", 60/100) ]

def PROFILE_ALIASES : List (String × String) :=
  [ ("financial", "bank")
  , ("telecom", "telco")
  , ("email_marketing", "marketing")
  , ("newsletter", "marketing") ]

/-- `dict.get(k, d)` on an embedded Python dict. -/
def dictGet (m : List (String × α)) (k : String) (d : α) : α :=
  (m.lookup k).getD d

/-! ## Threshold resolution (`api/main.py` lines 97-129)

The `SPAM_THRESHOLD` environment variable is a three-state input: unset
(`none`), set but not parseable as a float (`some none` — the code logs and
falls through), or set to a valid float (`some (some v)`).
`SYSTEM_PROFILE` is the already-lowercased value of the corresponding
environment variable (line 94 applies `.lower()` at definition). -/

def compute_spam_threshold (envOverride : Option (Option ℚ))
    (systemProfile : String) : ℚ :=
  match envOverride with
  | some (some v) => v
  | _ =>
    let profileKey := dictGet PROFILE_ALIASES systemProfile systemProfile
    dictGet PROFILE_THRESHOLDS profileKey
      (dictGet PROFILE_THRESHOLDS "default" 0)

/-- `str.lower()`.  The catalog and alias keys are ASCII, and `Char.toLower`
lowercases exactly the ASCII letters, which is where lookup behavior is
decided. -/
def pyLower (s : String) : String := ⟨s.data.map Char.toLower⟩

/-- Python's `str.strip()` whitespace set: the characters with the Unicode
whitespace property. -/
def pyIsSpace (c : Nat) : Bool :=
  (9 ≤ c && c ≤ 13) || (28 ≤ c && c ≤ 31) || c = 32 || c = 0x85 ||
  c = 0xA0 || c = 0x1680 || (0x2000 ≤ c && c ≤ 0x200A) || c = 0x2028 ||
  c = 0x2029 || c = 0x202F || c = 0x205F || c = 0x3000

def pyIsSpaceChar (c : Char) : Bool := pyIsSpace c.toNat

/-- `str.strip()` on a `String`: drop Unicode whitespace from both ends. -/
def pyStripStr (s : String) : String :=
  ⟨((s.data.dropWhile pyIsSpaceChar).reverse.dropWhile pyIsSpaceChar).reverse⟩

/-- The canonical key a requested profile resolves to: lowercase, then alias
map (lines 125-126). -/
def resolvedKey (profile : String) : String :=
  dictGet PROFILE_ALIASES (pyLower profile) (pyLower profile)

/-- `resolve_threshold` (lines 119-129).  `spamThreshold` is the module-level
`SPAM_THRESHOLD` computed once at startup (line 116).  `if profile:` is
Python truthiness: `None` and `""` both fall through to the default. -/
def resolve_threshold (spamThreshold : ℚ) (profile : Option String) : ℚ :=
  match profile with
  | some p =>
    if p ≠ "" then
      match PROFILE_THRESHOLDS.lookup (resolvedKey p) with
      | some t => t
      | none => spamThreshold
    else spamThreshold
  | none => spamThreshold

/-! ## Spam-class column selection

All four scoring paths pick the probability column for the spam class with
the same expression, transcribed once per path.
`np.where(classes == "spam")[0]` and `(classes == "spam").nonzero()[0]` both
produce the array of indices at which the class name equals `"spam"`. -/

/-- Indices `i` with `xs[i] = s` counting from `n`, in increasing order. -/
def whereEqFrom (s : String) : List String → Nat → List Nat
  | [], _ => []
  | x :: rest, n =>
    if x = s then n :: whereEqFrom s rest (n + 1) else whereEqFrom s rest (n + 1)

/-- Indices `i` with `xs[i] = s`, in increasing order. -/
def whereEq (xs : List String) (s : String) : List Nat :=
  whereEqFrom s xs 0

/-- `/predict` (lines 361-362): `np.where(...)[0]`, then
`spam_idx[0] if len(spam_idx) else (1 if proba.shape[1] == 2 else 0)`. -/
def predictSpamIdx (classes : List String) (ncols : Nat) : Nat :=
  (whereEq classes "spam").headD (if ncols = 2 then 1 else 0)

/-- `/batch` (lines 420-421): `(...).nonzero()[0]`, then the same guard. -/
def batchSpamIdx (classes : List String) (ncols : Nat) : Nat :=
  (whereEq classes "spam").headD (if ncols = 2 then 1 else 0)

/-- `/file-predict` (lines 536-537): identical to the `/batch` expression. -/
def fileSpamIdx (classes : List String) (ncols : Nat) : Nat :=
  (whereEq classes "spam").headD (if ncols = 2 then 1 else 0)

/-- CLI scorer (`src/batch_predict.py` lines 65-66): `np.where` form. -/
def cliSpamIdx (classes : List String) (ncols : Nat) : Nat :=
  (whereEq classes "spam").headD (if ncols = 2 then 1 else 0)

/-- The precedence as the specification words it: the index of a class
literally named `"spam"` when one exists, else the second of exactly two
columns, else the first column. -/
def specSpamPrecedence (classes : List String) (ncols : Nat) : Nat :=
  if "spam" ∈ classes then classes.indexOf "spam"
  else if ncols = 2 then 1 else 0

/-! ## Model bundle and the `/predict` and `/batch` endpoints

The bundle's vectorizer and classifier are external capabilities.
`transform` maps one text to its feature row (`vec.transform` maps a list of
texts to the matrix of those rows, row-wise); `predictProba?` is present
exactly when `hasattr(clf, "predict_proba")`, and maps a feature row to its
per-class probability row; `predict` maps a feature row to a discrete class
label. -/

structure Bundle (T F : Type) where
  transform : T → F
  classes : List String
  predictProba? : Option (F → List ℚ)
  predict : F → String

/-- One scored item: the response row shared by `/predict` and `/batch`
(`api/schemas.py`: `text`, `pred`, optional `proba_spam`). -/
structure Item where
  text : String
  pred : String
  proba_spam : Option ℚ
  deriving Repr, DecidableEq, Inhabited

/-- `/predict` (lines 328-377), after the model-loaded guard.  Returns the
HTTP error status on rejection.  `(payload.text or "").strip()` is
`pyStripStr`; the 422 guard fires exactly on an empty stripped text. -/
def predictEndpoint (b : Bundle String F) (threshold : ℚ) (text : String) :
    Except Nat Item :=
  let t := pyStripStr text
  if t = "" then .error 422
  else
    match b.predictProba? with
    | some pp =>
      let row := pp (b.transform t)
      let idx := predictSpamIdx b.classes b.classes.length
      let probaSpam := row.getD idx 0
      .ok { text := t
          , pred := if probaSpam ≥ threshold then "spam" else "ham"
          , proba_spam := some probaSpam }
    | none =>
      .ok { text := t
          , pred := b.predict (b.transform t)
          , proba_spam := none }

/-- The per-item scoring of `/batch` (lines 404-435): every text is
`str(t or "").strip()`-ped and scored; with probabilities the label is
thresholded, without them `clf.predict` is used and `proba_spam` stays
`None`. -/
def batchScore (b : Bundle String F) (threshold : ℚ) (texts : List String) :
    List Item :=
  let ts := texts.map (fun t => pyStripStr t)
  match b.predictProba? with
  | some pp =>
    let idx := batchSpamIdx b.classes b.classes.length
    ts.map (fun t =>
      let p := (pp (b.transform t)).getD idx 0
      { text := t
      , pred := if p ≥ threshold then "spam" else "ham"
      , proba_spam := some p })
  | none =>
    ts.map (fun t =>
      { text := t
      , pred := b.predict (b.transform t)
      , proba_spam := none })

/-- `/batch` response body: `size` and `items`. -/
structure BatchOut where
  size : Nat
  items : List Item
  deriving Repr, DecidableEq

/-- `/batch` (lines 380-441).  `maxBatch` is the `MAX_BATCH` configuration,
an integer parsed once at startup (line 30).  `bundle? = none` models the
model-not-loaded state (503); `if not payload.texts` rejects the empty list
with 422; a list longer than `MAX_BATCH` is rejected with 413. -/
def batchEndpoint (bundle? : Option (Bundle String F)) (maxBatch : ℤ)
    (threshold : ℚ) (texts : List String) : Except Nat BatchOut :=
  match bundle? with
  | none => .error 503
  | some b =>
    if texts.isEmpty then .error 422
    else if (texts.length : ℤ) > maxBatch then .error 413
    else
      let items := batchScore b threshold texts
      .ok { size := items.length, items := items }

/-! ## Character decoding

Strict decoders for the encodings the code names.  `bytes.decode("utf-8")`
is Python's strict UTF-8 decoder: it rejects overlong forms, surrogates and
code points above `0x10FFFF`.  `latin-1`/`ISO-8859-1` maps every byte to the
code point of the same value and never fails; `cp1252` remaps `0x80`-`0x9F`
and fails on the five unassigned bytes; `utf-8-sig` strips one leading BOM
and then decodes as UTF-8. -/

def utf8Cont (b : Nat) : Bool := 0x80 ≤ b && b ≤ 0xBF

def utf8Decode : List Nat → Option (List Nat)
  | [] => some []
  | b :: rest =>
    if b < 0x80 then
      (utf8Decode rest).map (b :: ·)
    else if 0xC2 ≤ b ∧ b ≤ 0xDF then
      match rest with
      | b1 :: rest2 =>
        if utf8Cont b1 then
          (utf8Decode rest2).map (((b - 0xC0) * 0x40 + (b1 - 0x80)) :: ·)
        else none
      | [] => none
    else if 0xE0 ≤ b ∧ b ≤ 0xEF then
      match rest with
      | b1 :: b2 :: rest3 =>
        let lo1 := if b = 0xE0 then 0xA0 else 0x80
        let hi1 := if b = 0xED then 0x9F else 0xBF
        if (lo1 ≤ b1 ∧ b1 ≤ hi1) ∧ utf8Cont b2 then
          (utf8Decode rest3).map
            (((b - 0xE0) * 0x1000 + (b1 - 0x80) * 0x40 + (b2 - 0x80)) :: ·)
        else none
      | _ => none
    else if 0xF0 ≤ b ∧ b ≤ 0xF4 then
      match rest with
      | b1 :: b2 :: b3 :: rest4 =>
        let lo1 := if b = 0xF0 then 0x90 else 0x80
        let hi1 := if b = 0xF4 then 0x8F else 0xBF
        if (lo1 ≤ b1 ∧ b1 ≤ hi1) ∧ utf8Cont b2 ∧ utf8Cont b3 then
          (utf8Decode rest4).map
            (((b - 0xF0) * 0x40000 + (b1 - 0x80) * 0x1000
              + (b2 - 0x80) * 0x40 + (b3 - 0x80)) :: ·)
        else none
      | _ => none
    else none

/-- The cp1252 mapping for bytes `0x80`-`0x9F`; the five bytes absent from
this table (`0x81, 0x8D, 0x8F, 0x90, 0x9D`) are unassigned and make the
decode fail. -/
def cp1252Hi : List (Nat × Nat) :=
  [ (0x80, 0x20AC), (0x82, 0x201A), (0x83, 0x0192), (0x84, 0x201E)
  , (0x85, 0x2026), (0x86, 0x2020), (0x87, 0x2021), (0x88, 0x02C6)
  , (0x89, 0x2030), (0x8A, 0x0160), (0x8B, 0x2039), (0x8C, 0x0152)
  , (0x8E, 0x017D), (0x91, 0x2018), (0x92, 0x2019), (0x93, 0x201C)
  , (0x94, 0x201D), (0x95, 0x2022), (0x96, 0x2013), (0x97, 0x2014)
  , (0x98, 0x02DC), (0x99, 0x2122), (0x9A, 0x0161), (0x9B, 0x203A)
  , (0x9C, 0x0153), (0x9E, 0x017E), (0x9F, 0x0178) ]

def cp1252DecodeByte (b : Nat) : Option Nat :=
  if b < 0x80 ∨ 0xA0 ≤ b then some b else cp1252Hi.lookup b

def cp1252Decode (bs : List Nat) : Option (List Nat) :=
  bs.mapM cp1252DecodeByte

def latin1Decode (bs : List Nat) : Option (List Nat) := some bs

def stripBom : List Nat → List Nat
  | 0xEF :: 0xBB :: 0xBF :: rest => rest
  | bs => bs

inductive Encoding where
  | utf8 | utf8sig | cp1252 | latin1 | iso8859_1
  deriving Repr, DecidableEq

def decodeWith : Encoding → List Nat → Option (List Nat)
  | .utf8, bs => utf8Decode bs
  | .utf8sig, bs => utf8Decode (stripBom bs)
  | .cp1252, bs => cp1252Decode bs
  | .latin1, bs => latin1Decode bs
  | .iso8859_1, bs => latin1Decode bs

/-- `FALLBACK_ENCODINGS` (`src/batch_predict.py` line 8), in source order. -/
def FALLBACK_ENCODINGS : List Encoding :=
  [.utf8, .utf8sig, .cp1252, .latin1, .iso8859_1]

/-- `_iter_csv` (`src/batch_predict.py` lines 24-31): try
`pd.read_csv(..., encoding=enc, ...)` for each encoding in order, return the
first reader obtained, raise the last error after all fail.  Opening the
reader is modelled eagerly as decoding the file's bytes and then parsing the
decoded text (`parse` stands for the pandas CSV parser producing the
sequence of chunks); `none` models the final `raise`. -/
def iterCsvTry (parse : List Nat → Option α) (content : List Nat) :
    List Encoding → Option α
  | [] => none
  | e :: rest =>
    match (decodeWith e content).bind parse with
    | some r => some r
    | none => iterCsvTry parse content rest

def iterCsv (parse : List Nat → Option α) (content : List Nat) : Option α :=
  iterCsvTry parse content FALLBACK_ENCODINGS

/-! ## Python line and whitespace handling

`str.splitlines` splits on the Unicode line boundaries, treating `\r\n` as a
single break and emitting no trailing empty line; `str.strip()` removes
leading and trailing Unicode whitespace. -/

def pyIsLineBreak (c : Nat) : Bool :=
  c = 10 || c = 11 || c = 12 || c = 13 || c = 28 || c = 29 || c = 30 ||
  c = 0x85 || c = 0x2028 || c = 0x2029

def splitlinesAux (acc : List Nat) : List Nat → List (List Nat)
  | [] => if acc.isEmpty then [] else [acc.reverse]
  | 13 :: 10 :: rest => acc.reverse :: splitlinesAux [] rest
  | c :: rest =>
    if pyIsLineBreak c then acc.reverse :: splitlinesAux [] rest
    else splitlinesAux (c :: acc) rest

def pySplitlines (cs : List Nat) : List (List Nat) :=
  splitlinesAux [] cs

def pyStrip (cs : List Nat) : List Nat :=
  ((cs.dropWhile pyIsSpace).reverse.dropWhile pyIsSpace).reverse

/-! ## `/file-predict` (`api/main.py` lines 444-564)

A parsed table is modelled by its column names and, when it has one, the
content of its `"text"` column rendered to strings
(`df["text"].astype(str).tolist()`); the other columns pass through scoring
untouched.  The pandas structured CSV parser and the Excel reader are
abstract parameters returning `none` where the library call raises. -/

structure DF where
  cols : List String
  text : List (List Nat)

/-- `[ln.strip() for ln in content.decode(...).splitlines() if ln.strip()]`. -/
def nonBlankLines (cs : List Nat) : List (List Nat) :=
  ((pySplitlines cs).map pyStrip).filter (fun l => ¬ l.isEmpty)

/-- `pd.DataFrame({"text": lines})`: a single-column table whose column list
is `["text"]` even when `lines` is empty. -/
def lineDF (cs : List Nat) : DF :=
  { cols := ["text"], text := nonBlankLines cs }

/-- Step 1 of `file_predict` (lines 477-510): extension dispatch, decode and
parse.  For `.csv` the structured parse is attempted on the UTF-8-decoded
text; if it raises, the same decoded text is split into non-blank lines; if
the *decode* raises, the fallback re-decode raises too and the outer handler
turns it into a 400.  `.xlsx`/`.xls` go to the Excel reader (a raise becomes
400); `.txt` is split into non-blank lines; any other extension is 415. -/
def readUpload (csvParse : List Nat → Option DF)
    (xlsxParse : List Nat → Option DF) (ext : String) (content : List Nat) :
    Except Nat DF :=
  if ext = ".csv" then
    match utf8Decode content with
    | some cs =>
      match csvParse cs with
      | some df => .ok df
      | none => .ok (lineDF cs)
    | none => .error 400
  else if ext = ".xlsx" ∨ ext = ".xls" then
    match xlsxParse content with
    | some df => .ok df
    | none => .error 400
  else if ext = ".txt" then
    match utf8Decode content with
    | some cs => .ok (lineDF cs)
    | none => .error 400
  else .error 415

/-- The output table: original columns plus `pred` and, when probabilities
are available, `proba_spam`; one output row per scored text. -/
structure OutDF where
  cols : List String
  texts : List (List Nat)
  preds : List String
  probas : Option (List ℚ)

/-- Step 2-3 of `file_predict` (lines 512-557): require a `"text"` column
(422 otherwise), score every row of it, and append the result columns. -/
def scoreDF (b : Bundle (List Nat) F) (threshold : ℚ) (df : DF) :
    Except Nat OutDF :=
  if "text" ∈ df.cols then
    let texts := df.text
    match b.predictProba? with
    | some pp =>
      let idx := fileSpamIdx b.classes b.classes.length
      let spamProbs := texts.map (fun t => (pp (b.transform t)).getD idx 0)
      .ok { cols := df.cols ++ ["pred", "proba_spam"]
          , texts := texts
          , preds := spamProbs.map (fun p => if p ≥ threshold then "spam" else "ham")
          , probas := some spamProbs }
    | none =>
      .ok { cols := df.cols ++ ["pred"]
          , texts := texts
          , preds := texts.map (fun t => b.predict (b.transform t))
          , probas := none }
  else .error 422

/-- The whole `/file-predict` endpoint.  `ext` and `stem` are
`Path(filename).suffix.lower()` and `Path(filename).stem` (pathlib is
external).  The result pairs the attachment name
`prediction_<stem>.csv` with the output table. -/
def filePredictEndpoint (csvParse : List Nat → Option DF)
    (xlsxParse : List Nat → Option DF)
    (bundle? : Option (Bundle (List Nat) F)) (threshold : ℚ)
    (filename ext stem : String) (content : List Nat) :
    Except Nat (String × OutDF) :=
  match bundle? with
  | none => .error 503
  | some b =>
    if filename = "" then .error 400
    else
      match readUpload csvParse xlsxParse ext content with
      | .error e => .error e
      | .ok df =>
        match scoreDF b threshold df with
        | .error e => .error e
        | .ok out => .ok ("prediction_" ++ stem ++ ".csv", out)

/-! ## CLI batch scorer (`src/batch_predict.py` lines 37-88)

The CLI classifier additionally may expose `decision_function`; its result
is a 1-D score vector for binary models (`dfun.ndim == 1`) or a 2-D matrix
whose last column is used.  `σ` stands for the real-valued logistic map
`x ↦ 1 / (1 + exp (-x))` applied elementwise.  A probability cell is either
a number or `NaN` (`np.nan`, filled when neither capability exists). -/

inductive DecisionFun (F : Type) where
  | scalar (f : F → ℚ)
  | multi (f : F → List ℚ)

structure CliModel (F : Type) where
  transform : String → F
  classes : List String
  predictProba? : Option (F → List ℚ)
  decisionFunction? : Option (DecisionFun F)
  predict : F → String

inductive PVal where
  | num (q : ℚ)
  | nan
  deriving Repr, DecidableEq

/-- `np.where(out_chunk["proba_spam"] >= thr, "spam", "ham")`: any
comparison against NaN is false. -/
def pvalGe : PVal → ℚ → Bool
  | .num q, t => q ≥ t
  | .nan, _ => false

/-- One output chunk: the `pred` column, the `proba_spam` column, and the
`pred_thresholded` column added only when a threshold was passed. -/
structure CliChunkOut where
  pred : List String
  probaSpam : List PVal
  predThresholded : Option (List String)

/-- The per-chunk body of `main`'s loop (lines 57-86): `pred` always comes
from `model.predict`; `proba_spam` from `predict_proba` if available, else
from the sigmoid of `decision_function` scores, else a column of NaN. -/
def scoreCliChunk (σ : ℚ → ℚ) (m : CliModel F) (threshold? : Option ℚ)
    (texts : List String) : CliChunkOut :=
  let pred := texts.map (fun t => m.predict (m.transform t))
  let probaSpam : List PVal :=
    match m.predictProba? with
    | some pp =>
      let idx := cliSpamIdx m.classes m.classes.length
      texts.map (fun t => .num ((pp (m.transform t)).getD idx 0))
    | none =>
      match m.decisionFunction? with
      | some (.scalar f) => texts.map (fun t => .num (σ (f (m.transform t))))
      | some (.multi f) =>
        texts.map (fun t => .num (σ ((f (m.transform t)).getLastD 0)))
      | none => texts.map (fun _ => .nan)
  { pred := pred
  , probaSpam := probaSpam
  , predThresholded := threshold?.map (fun thr =>
      probaSpam.map (fun p => if pvalGe p thr then "spam" else "ham")) }

/-! ## Concrete fixtures used by witnesses -/

/-- A probabilistic two-class classifier assigning every text spam
probability `7/10`, with `classes_ = ["ham", "spam"]`. -/
def probBundle : Bundle String Unit :=
  { transform := fun _ => ()
  , classes := ["ham", "spam"]
  , predictProba? := some (fun _ => [3/10, 7/10])
  , predict := fun _ => "ham" }

/-- A probabilistic classifier whose probability rows hold the integral
rationals `0` and `1`, so that endpoint results reduce definitionally. -/
def unitProbBundle : Bundle String Unit :=
  { transform := fun _ => ()
  , classes := ["ham", "spam"]
  , predictProba? := some (fun _ => [0, 1])
  , predict := fun _ => "ham" }

/-- A label-only classifier (no `predict_proba`). -/
def labelBundle : Bundle String Unit :=
  { transform := fun _ => ()
  , classes := ["ham", "spam"]
  , predictProba? := none
  , predict := fun _ => "spam" }

/-- The byte-level counterpart of `probBundle` for the file path. -/
def fileProbBundle : Bundle (List Nat) Unit :=
  { transform := fun _ => ()
  , classes := ["ham", "spam"]
  , predictProba? := some (fun _ => [3/10, 7/10])
  , predict := fun _ => "ham" }

/-- A CLI model with neither `predict_proba` nor `decision_function`. -/
def bareCliModel : CliModel Unit :=
  { transform := fun _ => ()
  , classes := ["ham", "spam"]
  , predictProba? := none
  , decisionFunction? := none
  , predict := fun _ => "ham" }

/-! ## Theorems -/

section Theorems

variable {F : Type}

/-- Helper for the spam-index claims: taking the head of the list of match
positions (with a default for the empty list) picks the first index of the
sought element when it occurs, and the default otherwise. -/
lemma whereEqFrom_head (s : String) (d : Nat) :
    ∀ (xs : List String) (n : Nat),
      (whereEqFrom s xs n).headD d
        = if s ∈ xs then n + xs.indexOf s else d := by
  intro xs
  induction xs with
  | nil => intro n; simp [whereEqFrom]
  | cons x xs ih =>
    intro n
    by_cases hx : x = s
    · subst hx
      simp [whereEqFrom, List.indexOf_cons_self]
    · rw [show whereEqFrom s (x :: xs) n = whereEqFrom s xs (n + 1) by
        simp [whereEqFrom, hx]]
      rw [ih (n + 1)]
      by_cases hmem : s ∈ xs
      · rw [if_pos hmem, if_pos (List.mem_cons_of_mem x hmem),
          List.indexOf_cons_ne _ hx]
        omega
      · rw [if_neg hmem, if_neg (by
          simp only [List.mem_cons, not_or]
          exact ⟨fun h => hx h.symm, hmem⟩)]

lemma whereEq_head (xs : List String) (s : String) (d : Nat) :
    (whereEq xs s).headD d = if s ∈ xs then xs.indexOf s else d := by
  have h := whereEqFrom_head s d xs 0
  simpa [whereEq] using h

/-- **C4.** For every class list and probability-matrix width, the spam
column chosen by the `/predict`, `/batch`, `/file-predict` and CLI scoring
paths is the same and follows exactly the precedence: the index of a class
literally named `"spam"` when one exists, else column 1 of a two-column
matrix, else column 0. -/
theorem C4_spam_index_precedence (classes : List String) (ncols : Nat) :
    predictSpamIdx classes ncols = specSpamPrecedence classes ncols
    ∧ batchSpamIdx classes ncols = specSpamPrecedence classes ncols
    ∧ fileSpamIdx classes ncols = specSpamPrecedence classes ncols
    ∧ cliSpamIdx classes ncols = specSpamPrecedence classes ncols := by
  have core := whereEq_head classes "spam" (if ncols = 2 then 1 else 0)
  exact ⟨core, core, core, core⟩

/-- **C8.** A requested profile key that, after lowercasing and alias
mapping, is not a key of the profile catalog — and likewise an absent
key — resolves to the process-wide default threshold; `resolve_threshold`
is total, so no error is possible. -/
theorem C8_unknown_profile_falls_back (spamThreshold : ℚ)
    (profile : Option String)
    (h : ∀ p, profile = some p →
      PROFILE_THRESHOLDS.lookup (resolvedKey p) = none) :
    resolve_threshold spamThreshold profile = spamThreshold := by
  cases profile with
  | none => rfl
  | some p =>
    unfold resolve_threshold
    by_cases hp : p = ""
    · simp [hp]
    · simp [hp, h p rfl]

/-- Witness for C8: the unknown key `"mystery"` resolves to the default. -/
theorem C8_witness :
    resolve_threshold (11/20) (some "mystery") = 11/20 :=
  C8_unknown_profile_falls_back (11/20) (some "mystery")
    (by intro p hp; injection hp with h; subst h; rfl)

/-- **C1 counterexample.** With the global override `SPAM_THRESHOLD=0.9`
configured and valid, a request for profile `"bank"` (a known profile with
threshold `0.65`) resolves to `0.65`, not the override `0.9`: the claim
"threshold resolution returns that override regardless of the requested
profile" is false on the code. -/
theorem C1_counterexample :
    resolve_threshold (compute_spam_threshold (some (some (9/10))) "default")
        (some "bank") = 65/100
    ∧ (65/100 : ℚ) ≠ 9/10 := by
  refine ⟨rfl, by norm_num⟩

/-- **C1 (amended).** A valid global override becomes the process-wide
default threshold, and is returned whenever the requested profile key
resolves to no catalog profile; but a requested key that resolves to a
known profile yields that profile's threshold, bypassing the override. -/
theorem C1_amended_override_is_only_default (v : ℚ) (sys : String)
    (p : String) (hp : p ≠ "") :
    (∀ t, PROFILE_THRESHOLDS.lookup (resolvedKey p) = some t →
      resolve_threshold (compute_spam_threshold (some (some v)) sys)
        (some p) = t)
    ∧ (PROFILE_THRESHOLDS.lookup (resolvedKey p) = none →
      resolve_threshold (compute_spam_threshold (some (some v)) sys)
        (some p) = v) := by
  constructor
  · intro t ht
    unfold resolve_threshold
    simp [hp, ht]
  · intro hn
    unfold resolve_threshold
    simp [hp, hn]
    rfl

/-- Witness for the amended C1: override `0.9`, profile `"bank"` gives
`0.65`; unknown profile `"mystery"` gives the override back. -/
theorem C1_amended_witness :
    resolve_threshold (compute_spam_threshold (some (some (9/10))) "default")
        (some "bank") = 65/100
    ∧ resolve_threshold (compute_spam_threshold (some (some (9/10))) "default")
        (some "mystery") = 9/10 :=
  ⟨(C1_amended_override_is_only_default (9/10) "default" "bank"
      (by decide)).1 (65/100) rfl
  , (C1_amended_override_is_only_default (9/10) "default" "mystery"
      (by decide)).2 rfl⟩

/-- **C3.** With probability output, a scored text is labelled `"spam"`
exactly when its spam probability is at least the effective threshold and
`"ham"` otherwise, in both the single-item and the batch path.  Without it,
the label is the classifier's raw predicted class, the spam probability is
absent (`none`, not `some 0`), and the threshold has no effect on the
result. -/
theorem C3_label_assignment (b : Bundle String F) (thr : ℚ)
    (text : String) (texts : List String) :
    (∀ pp, b.predictProba? = some pp → ∀ it,
      predictEndpoint b thr text = .ok it →
        ∃ p, it.proba_spam = some p
          ∧ (it.pred = "spam" ↔ p ≥ thr) ∧ (it.pred = "ham" ↔ ¬ p ≥ thr))
    ∧ (∀ pp, b.predictProba? = some pp → ∀ it, it ∈ batchScore b thr texts →
        ∃ p, it.proba_spam = some p
          ∧ (it.pred = "spam" ↔ p ≥ thr) ∧ (it.pred = "ham" ↔ ¬ p ≥ thr))
    ∧ (b.predictProba? = none →
        (∀ it, predictEndpoint b thr text = .ok it →
          it.pred = b.predict (b.transform (pyStripStr text)) ∧ it.proba_spam = none)
        ∧ ∀ thr', predictEndpoint b thr' text = predictEndpoint b thr text)
    ∧ (b.predictProba? = none →
        (∀ it, it ∈ batchScore b thr texts →
          it.pred = b.predict (b.transform it.text) ∧ it.proba_spam = none)
        ∧ ∀ thr', batchScore b thr' texts = batchScore b thr texts) := by
  refine ⟨?_, ?_, ?_, ?_⟩
  · intro pp hpp it hit
    unfold predictEndpoint at hit
    by_cases hte : pyStripStr text = ""
    · simp [hte] at hit
    · rw [hpp] at hit
      simp only [hte, if_false, ite_false] at hit
      refine ⟨(pp (b.transform (pyStripStr text))).getD
        (predictSpamIdx b.classes b.classes.length) 0, ?_, ?_, ?_⟩ <;>
      · cases hit
        by_cases hp : (pp (b.transform (pyStripStr text))).getD
            (predictSpamIdx b.classes b.classes.length) 0 ≥ thr <;>
          simp [hp]
  · intro pp hpp it hit
    unfold batchScore at hit
    rw [hpp] at hit
    simp only [List.mem_map] at hit
    obtain ⟨t, _, hback⟩ := hit
    refine ⟨(pp (b.transform t)).getD
      (batchSpamIdx b.classes b.classes.length) 0, ?_, ?_, ?_⟩ <;>
    · cases hback
      by_cases hp : (pp (b.transform t)).getD
          (batchSpamIdx b.classes b.classes.length) 0 ≥ thr <;>
        simp [hp]
  · intro hpp
    constructor
    · intro it hit
      unfold predictEndpoint at hit
      by_cases hte : pyStripStr text = ""
      · simp [hte] at hit
      · rw [hpp] at hit
        simp only [hte, if_false, ite_false] at hit
        cases hit
        exact ⟨rfl, rfl⟩
    · intro thr'
      unfold predictEndpoint
      rw [hpp]
  · intro hpp
    constructor
    · intro it hit
      unfold batchScore at hit
      rw [hpp] at hit
      simp only [List.mem_map] at hit
      obtain ⟨t, _, hback⟩ := hit
      cases hback
      exact ⟨rfl, rfl⟩
    · intro thr'
      unfold batchScore
      rw [hpp]

/-- Witness for C3: with the integral probabilistic fixture (spam
probability `1`) and threshold `1`, the single-item result carries `some 1`
and is labelled `"spam"`. -/
theorem C3_witness :
    ∃ p, (Item.mk "hello" "spam" (some 1)).proba_spam = some p
      ∧ ((Item.mk "hello" "spam" (some 1)).pred = "spam" ↔ p ≥ (1 : ℚ))
      ∧ ((Item.mk "hello" "spam" (some 1)).pred = "ham" ↔ ¬ p ≥ (1 : ℚ)) :=
  (C3_label_assignment unitProbBundle 1 "hello" []).1
    (fun _ => [0, 1]) rfl (Item.mk "hello" "spam" (some 1)) rfl

/-- **C5.** With the model loaded, `/batch` rejects exactly the empty list
with 422, rejects exactly the lists longer than `MAX_BATCH` with 413, and
scores every list whose length is between 1 and `MAX_BATCH` inclusive. -/
theorem C5_batch_size_validation (b : Bundle String F) (maxBatch : ℤ)
    (hm : 0 ≤ maxBatch) (thr : ℚ) (texts : List String) :
    (batchEndpoint (some b) maxBatch thr texts = .error 422 ↔ texts = [])
    ∧ (batchEndpoint (some b) maxBatch thr texts = .error 413
        ↔ (texts.length : ℤ) > maxBatch)
    ∧ (1 ≤ texts.length → (texts.length : ℤ) ≤ maxBatch →
        batchEndpoint (some b) maxBatch thr texts
          = .ok ⟨(batchScore b thr texts).length, batchScore b thr texts⟩) := by
  have heval : batchEndpoint (some b) maxBatch thr texts
      = if texts.isEmpty then .error 422
        else if (texts.length : ℤ) > maxBatch then .error 413
        else .ok ⟨(batchScore b thr texts).length, batchScore b thr texts⟩ :=
    rfl
  rw [heval]
  by_cases he : texts.isEmpty
  · have hnil : texts = [] := List.isEmpty_iff.mp he
    subst hnil
    rw [if_pos (show (List.isEmpty ([] : List String)) = true from rfl)]
    refine ⟨by simp, ⟨fun h => by simp at h, fun h => by simp at h; omega⟩,
      fun h1 _ => by simp at h1⟩
  · have hne : texts ≠ [] := fun h => he (h ▸ rfl)
    rw [if_neg he]
    by_cases hl : (texts.length : ℤ) > maxBatch
    · rw [if_pos hl]
      exact ⟨⟨fun h => by simp at h, fun h => absurd h hne⟩,
        ⟨fun _ => hl, fun _ => rfl⟩, fun _ hle => absurd hl (by omega)⟩
    · rw [if_neg hl]
      exact ⟨⟨fun h => by simp at h, fun h => absurd h hne⟩,
        ⟨fun h => by simp at h, fun h => absurd h hl⟩, fun _ _ => rfl⟩

/-- Witness for C5: a two-element batch under `MAX_BATCH = 3` is scored. -/
theorem C5_witness :
    batchEndpoint (some probBundle) 3 (1/2) ["a", "b"]
      = .ok ⟨(batchScore probBundle (1/2) ["a", "b"]).length,
             batchScore probBundle (1/2) ["a", "b"]⟩ :=
  (C5_batch_size_validation probBundle 3 (by norm_num) (1/2)
    ["a", "b"]).2.2 (by norm_num) (by norm_num)

/-- **C7.** Scoring is batch-invariant: with a fixed threshold and bundle,
the i-th item of a `/batch` call equals the result of scoring the i-th text
alone through `/predict`, whenever the texts are non-empty after
trimming. -/
theorem C7_batch_invariance (b : Bundle String F) (thr : ℚ)
    (texts : List String) (hne : ∀ t ∈ texts, pyStripStr t ≠ "")
    (i : Nat) (t : String) (ht : texts[i]? = some t) :
    ∃ it, (batchScore b thr texts)[i]? = some it
      ∧ predictEndpoint b thr t = .ok it := by
  have htr : pyStripStr t ≠ "" := hne t (List.getElem?_mem ht)
  cases hpp : b.predictProba? with
  | some pp =>
    refine ⟨{ text := pyStripStr t
            , pred := if (pp (b.transform (pyStripStr t))).getD
                (batchSpamIdx b.classes b.classes.length) 0 ≥ thr
                then "spam" else "ham"
            , proba_spam := some ((pp (b.transform (pyStripStr t))).getD
                (batchSpamIdx b.classes b.classes.length) 0) }, ?_, ?_⟩
    · simp only [batchScore, hpp, List.getElem?_map, ht, Option.map_some']
    · simp only [predictEndpoint, hpp, htr, ite_false, if_false]
      rfl
  | none =>
    refine ⟨{ text := pyStripStr t
            , pred := b.predict (b.transform (pyStripStr t))
            , proba_spam := none }, ?_, ?_⟩
    · simp only [batchScore, hpp, List.getElem?_map, ht, Option.map_some']
    · simp only [predictEndpoint, hpp, htr, ite_false, if_false]

/-- Witness for C7: the first item of the batch `["a", "b"]` coincides with
the single-item result on `"a"`. -/
theorem C7_witness :
    ∃ it, (batchScore probBundle (1/2) ["a", "b"])[0]? = some it
      ∧ predictEndpoint probBundle (1/2) "a" = .ok it :=
  C7_batch_invariance probBundle (1/2) ["a", "b"]
    (by decide) 0 "a" rfl

/-! Evaluation lemmas for the `/file-predict` embedding, shared by the
file-path claims. -/

lemma readUpload_txt (csvP xlsxP : List Nat → Option DF) (content : List Nat) :
    readUpload csvP xlsxP ".txt" content
      = match utf8Decode content with
        | some cs => .ok (lineDF cs)
        | none => .error 400 := by
  unfold readUpload
  rw [if_neg (by decide), if_neg (by decide), if_pos rfl]

lemma readUpload_csv (csvP xlsxP : List Nat → Option DF) (content : List Nat) :
    readUpload csvP xlsxP ".csv" content
      = match utf8Decode content with
        | some cs =>
          match csvP cs with
          | some df => .ok df
          | none => .ok (lineDF cs)
        | none => .error 400 := by
  unfold readUpload
  rw [if_pos rfl]

lemma filePredict_eval (csvP xlsxP : List Nat → Option DF)
    (b : Bundle (List Nat) F) (thr : ℚ) (fn ext st : String)
    (content : List Nat) (hfn : fn ≠ "") :
    filePredictEndpoint csvP xlsxP (some b) thr fn ext st content
      = match readUpload csvP xlsxP ext content with
        | .error e => .error e
        | .ok df =>
          match scoreDF b thr df with
          | .error e => .error e
          | .ok out => .ok ("prediction_" ++ st ++ ".csv", out) := by
  have hred : filePredictEndpoint csvP xlsxP (some b) thr fn ext st content
      = if fn = "" then .error 400
        else match readUpload csvP xlsxP ext content with
          | .error e => .error e
          | .ok df =>
            match scoreDF b thr df with
            | .error e => .error e
            | .ok out => .ok ("prediction_" ++ st ++ ".csv", out) := rfl
  rw [hred, if_neg hfn]

lemma scoreDF_ok (b : Bundle (List Nat) F) (thr : ℚ) (df : DF)
    (hc : "text" ∈ df.cols) :
    ∃ out, scoreDF b thr df = .ok out ∧ out.texts = df.text
      ∧ out.preds.length = df.text.length
      ∧ ∀ ps, out.probas = some ps → ps.length = df.text.length := by
  unfold scoreDF
  rw [if_pos hc]
  cases hpp : b.predictProba? with
  | some pp =>
    refine ⟨_, rfl, rfl, by simp, ?_⟩
    intro ps hps
    cases hps
    simp
  | none =>
    refine ⟨_, rfl, rfl, by simp, ?_⟩
    intro ps hps
    cases hps

lemma lineDF_text (cs : List Nat) : (lineDF cs).text = nonBlankLines cs := rfl

lemma lineDF_cols (cs : List Nat) : "text" ∈ (lineDF cs).cols := by
  simp [lineDF]

/-- **C2 counterexample.** The byte `0xE9` does not decode as UTF-8 but
does decode under `latin-1`, an encoding strictly later in
`FALLBACK_ENCODINGS`; yet uploading it as a `.txt` file fails with 400:
the upload path does not apply the ordered encoding list. -/
theorem C2_counterexample :
    utf8Decode [0xE9] = none
    ∧ decodeWith .latin1 [0xE9] = some [0xE9]
    ∧ Encoding.latin1 ∈ FALLBACK_ENCODINGS.drop 1
    ∧ filePredictEndpoint (fun _ => none) (fun _ => none) (some fileProbBundle)
        (11/20) "m.txt" ".txt" "m" [0xE9] = .error 400 :=
  ⟨rfl, rfl, by decide, rfl⟩

/-- **C2 (amended).** The ordered encoding-fallback loop lives in the CLI
CSV reader, not in the upload path: `_iter_csv` takes the first encoding
under which opening succeeds, skips an encoding exactly when it fails, and
reports an error only after every encoding in the list has failed.  The
uploaded-file path instead decodes with UTF-8 alone: when that single
decode fails, `.txt` and `.csv` ingestion fail with 400 even if a later
encoding in the CLI's list would succeed. -/
theorem C2_amended_encoding_fallback {α : Type} (parse : List Nat → Option α)
    (content : List Nat) (csvP xlsxP : List Nat → Option DF)
    (b : Bundle (List Nat) F) (thr : ℚ) (fn st : String) :
    (∀ e rest r, (decodeWith e content).bind parse = some r →
      iterCsvTry parse content (e :: rest) = some r)
    ∧ (∀ e rest, (decodeWith e content).bind parse = none →
      iterCsvTry parse content (e :: rest) = iterCsvTry parse content rest)
    ∧ (∀ encs, (∀ e ∈ encs, (decodeWith e content).bind parse = none) →
      iterCsvTry parse content encs = none)
    ∧ (utf8Decode content = none → fn ≠ "" →
      filePredictEndpoint csvP xlsxP (some b) thr fn ".txt" st content
          = .error 400
      ∧ filePredictEndpoint csvP xlsxP (some b) thr fn ".csv" st content
          = .error 400) := by
  have hstep : ∀ e rest, iterCsvTry parse content (e :: rest)
      = match (decodeWith e content).bind parse with
        | some r => some r
        | none => iterCsvTry parse content rest := fun _ _ => rfl
  refine ⟨?_, ?_, ?_, ?_⟩
  · intro e rest r h
    rw [hstep, h]
  · intro e rest h
    rw [hstep, h]
  · intro encs hall
    induction encs with
    | nil => rfl
    | cons e rest ih =>
      rw [hstep, hall e (List.mem_cons_self e rest)]
      exact ih (fun e' he' => hall e' (List.mem_cons_of_mem e he'))
  · intro hd hfn
    constructor
    · rw [filePredict_eval csvP xlsxP b thr fn ".txt" st content hfn,
        readUpload_txt, hd]
    · rw [filePredict_eval csvP xlsxP b thr fn ".csv" st content hfn,
        readUpload_csv, hd]

/-- Witness for the amended C2: `latin-1` succeeds immediately in the CLI
loop on the byte `0xE9`, while the `.txt` upload of the same byte is
rejected with 400. -/
theorem C2_amended_witness :
    iterCsvTry (fun cs : List Nat => some cs) [0xE9] [Encoding.latin1]
        = some [0xE9]
    ∧ filePredictEndpoint (fun _ => none) (fun _ => none) (some fileProbBundle)
        (11/20) "m.txt" ".txt" "m" [0xE9] = .error 400 := by
  have h := C2_amended_encoding_fallback (fun cs : List Nat => some cs)
    [0xE9] (fun _ => none) (fun _ => none) fileProbBundle (11/20) "m.txt" "m"
  exact ⟨h.1 .latin1 [] [0xE9] rfl, (h.2.2.2 rfl (by decide)).1⟩

/-- **C6.** For a `.txt` upload, and for a `.csv` upload whose structured
parse raises, the output table has exactly one scored row per non-blank
input line, in input order; for a `.csv` whose structured parse succeeds
(with a `"text"` column), the output rows equal the parsed rows in
order. -/
theorem C6_row_count_and_order (csvP xlsxP : List Nat → Option DF)
    (b : Bundle (List Nat) F) (thr : ℚ) (fn st : String) (hfn : fn ≠ "")
    (content cs : List Nat) (hd : utf8Decode content = some cs) :
    (∃ out, filePredictEndpoint csvP xlsxP (some b) thr fn ".txt" st content
        = .ok ("prediction_" ++ st ++ ".csv", out)
      ∧ out.texts = nonBlankLines cs
      ∧ out.preds.length = (nonBlankLines cs).length
      ∧ ∀ ps, out.probas = some ps → ps.length = (nonBlankLines cs).length)
    ∧ (csvP cs = none →
      ∃ out, filePredictEndpoint csvP xlsxP (some b) thr fn ".csv" st content
        = .ok ("prediction_" ++ st ++ ".csv", out)
      ∧ out.texts = nonBlankLines cs
      ∧ out.preds.length = (nonBlankLines cs).length
      ∧ ∀ ps, out.probas = some ps → ps.length = (nonBlankLines cs).length)
    ∧ (∀ df, csvP cs = some df → "text" ∈ df.cols →
      ∃ out, filePredictEndpoint csvP xlsxP (some b) thr fn ".csv" st content
        = .ok ("prediction_" ++ st ++ ".csv", out)
      ∧ out.texts = df.text
      ∧ out.preds.length = df.text.length
      ∧ ∀ ps, out.probas = some ps → ps.length = df.text.length) := by
  refine ⟨?_, ?_, ?_⟩
  · obtain ⟨out, hout, h1, h2, h3⟩ := scoreDF_ok b thr (lineDF cs) (lineDF_cols cs)
    refine ⟨out, ?_, h1, h2, h3⟩
    rw [filePredict_eval csvP xlsxP b thr fn ".txt" st content hfn,
      readUpload_txt, hd]
    simp only [hout]
  · intro hcsv
    obtain ⟨out, hout, h1, h2, h3⟩ := scoreDF_ok b thr (lineDF cs) (lineDF_cols cs)
    refine ⟨out, ?_, h1, h2, h3⟩
    rw [filePredict_eval csvP xlsxP b thr fn ".csv" st content hfn,
      readUpload_csv, hd]
    simp only [hcsv, hout]
  · intro df hcsv hc
    obtain ⟨out, hout, h1, h2, h3⟩ := scoreDF_ok b thr df hc
    refine ⟨out, ?_, h1, h2, h3⟩
    rw [filePredict_eval csvP xlsxP b thr fn ".csv" st content hfn,
      readUpload_csv, hd]
    simp only [hcsv, hout]

/-- Witness for C6: the two-line file `"a\nb"` yields two scored rows. -/
theorem C6_witness :
    ∃ out, filePredictEndpoint (fun _ => none) (fun _ => none)
        (some fileProbBundle) (11/20) "m.txt" ".txt" "m" [97, 10, 98]
        = .ok ("prediction_" ++ "m" ++ ".csv", out)
      ∧ out.texts = nonBlankLines [97, 10, 98]
      ∧ out.preds.length = (nonBlankLines [97, 10, 98]).length
      ∧ ∀ ps, out.probas = some ps →
          ps.length = (nonBlankLines [97, 10, 98]).length :=
  (C6_row_count_and_order (fun _ => none) (fun _ => none) fileProbBundle
    (11/20) "m.txt" "m" (by decide) [97, 10, 98] [97, 10, 98] rfl).1

/-- **C9.** A line-format upload whose lines are all blank (or an empty
file) is not an error: the synthesized table always carries a `"text"`
column, so the missing-column check passes and the endpoint returns a
header-only table with zero data rows instead of a 422. -/
theorem C9_blank_lines_yield_header_only (csvP xlsxP : List Nat → Option DF)
    (b : Bundle (List Nat) F) (thr : ℚ) (fn st : String) (hfn : fn ≠ "")
    (content cs : List Nat) (hd : utf8Decode content = some cs)
    (hb : nonBlankLines cs = []) :
    "text" ∈ (lineDF cs).cols
    ∧ ∃ out, filePredictEndpoint csvP xlsxP (some b) thr fn ".txt" st content
        = .ok ("prediction_" ++ st ++ ".csv", out)
      ∧ out.texts = [] ∧ out.preds = [] := by
  obtain ⟨out, hout, h1, h2, _⟩ := scoreDF_ok b thr (lineDF cs) (lineDF_cols cs)
  have htexts : out.texts = [] := by rw [h1, lineDF_text, hb]
  have hpreds : out.preds = [] := by
    have hlen : out.preds.length = 0 := by rw [h2, lineDF_text, hb]; rfl
    exact List.length_eq_zero.mp hlen
  refine ⟨lineDF_cols cs, out, ?_, htexts, hpreds⟩
  rw [filePredict_eval csvP xlsxP b thr fn ".txt" st content hfn,
    readUpload_txt, hd]
  simp only [hout]

/-- Witness for C9: the file `"  \n\n"` (all lines blank) produces an
empty, header-only result table. -/
theorem C9_witness :
    "text" ∈ (lineDF [32, 32, 10, 10]).cols
    ∧ ∃ out, filePredictEndpoint (fun _ => none) (fun _ => none)
        (some fileProbBundle) (11/20) "m.txt" ".txt" "m" [32, 32, 10, 10]
        = .ok ("prediction_" ++ "m" ++ ".csv", out)
      ∧ out.texts = [] ∧ out.preds = [] :=
  C9_blank_lines_yield_header_only (fun _ => none) (fun _ => none)
    fileProbBundle (11/20) "m.txt" "m" (by decide)
    [32, 32, 10, 10] [32, 32, 10, 10] rfl (by decide)

/-- **C10.** In the CLI batch scorer, every output chunk's `proba_spam`
column has one entry per row and is chosen by the three-way capability
precedence — `predict_proba` probabilities when available, else the
logistic sigmoid of `decision_function` scores, else NaN in every row —
and the `pred` column always comes from the classifier's discrete
`predict`, not from thresholding. -/
theorem C10_cli_proba_column (σ : ℚ → ℚ) (m : CliModel F) (thr? : Option ℚ)
    (texts : List String) :
    (scoreCliChunk σ m thr? texts).probaSpam.length = texts.length
    ∧ (scoreCliChunk σ m thr? texts).pred
        = texts.map (fun t => m.predict (m.transform t))
    ∧ (∀ pp, m.predictProba? = some pp →
        (scoreCliChunk σ m thr? texts).probaSpam = texts.map (fun t =>
          .num ((pp (m.transform t)).getD
            (cliSpamIdx m.classes m.classes.length) 0)))
    ∧ (m.predictProba? = none → ∀ f, m.decisionFunction? = some (.scalar f) →
        (scoreCliChunk σ m thr? texts).probaSpam
          = texts.map (fun t => .num (σ (f (m.transform t)))))
    ∧ (m.predictProba? = none → ∀ f, m.decisionFunction? = some (.multi f) →
        (scoreCliChunk σ m thr? texts).probaSpam
          = texts.map (fun t => .num (σ ((f (m.transform t)).getLastD 0))))
    ∧ (m.predictProba? = none → m.decisionFunction? = none →
        ∀ v ∈ (scoreCliChunk σ m thr? texts).probaSpam, v = .nan) := by
  refine ⟨?_, rfl, ?_, ?_, ?_, ?_⟩
  · simp only [scoreCliChunk]
    cases hpp : m.predictProba? with
    | some pp => simp
    | none =>
      cases hdf : m.decisionFunction? with
      | some d => cases d <;> simp
      | none => simp
  · intro pp hpp
    simp only [scoreCliChunk, hpp]
  · intro hpp f hdf
    simp only [scoreCliChunk, hpp, hdf]
  · intro hpp f hdf
    simp only [scoreCliChunk, hpp, hdf]
  · intro hpp hdf v hv
    simp only [scoreCliChunk, hpp, hdf, List.mem_map] at hv
    obtain ⟨_, _, h⟩ := hv
    exact h.symm

/-- Witness for C10: with neither capability, the chunk for one row has a
one-entry `proba_spam` column that is NaN. -/
theorem C10_witness :
    (scoreCliChunk (fun q => q) bareCliModel none ["x"]).probaSpam.length = 1
    ∧ ∀ v ∈ (scoreCliChunk (fun q => q) bareCliModel none ["x"]).probaSpam,
        v = PVal.nan := by
  have h := C10_cli_proba_column (fun q => q) bareCliModel none ["x"]
  exact ⟨h.1, h.2.2.2.2.2 rfl rfl⟩

end Theorems

end SpamDetector
